import Mathlib

/-!
Shallow embedding of the Pac-Man maze-chase simulation core from
`src/pacman.py`: the tile grid, the two collision tests, actor movement
with horizontal wrap-around, the ghost behavior state machine, the
per-tick session orchestration (`Game.update_game`), and level
construction (`Game.setup_level` / `Game.find_spawn`).

Modelling conventions:
* Continuous positions and speeds are integers measured in twentieths of
  a pixel (`PIXEL = 20` units per pixel).  Every speed occurring in the
  source (2.5, 1.5 and 1.0 pixels per tick, and the 1.3x / 1.6x
  multiplied ghost speeds) is then integral, so on this lattice the
  model's exact arithmetic agrees with the source's float arithmetic;
  all guards in the source are scale-invariant.
* `random.shuffle` is modelled by passing the shuffled direction list in
  explicitly; one list per ghost per tick.
* The source compares `math.sqrt(dx**2 + dy**2) < CELL_SIZE * 0.7`; the
  square root is monotone, so this is embedded as the equivalent squared
  comparison against `(CELL_SIZE * 0.7)^2`.
* Purely visual state (sprites, particles, mouth animation) is omitted;
  the ghost `blink` flag is kept because `Ghost.update` computes it.
* In-place mutation of the session becomes explicit state passing.
-/

namespace PacmanGame

/-- Length units per pixel: all coordinates are in twentieths of a pixel. -/
def PIXEL : ℤ := 20

/-- Pixel width of the playfield (`SCREEN_WIDTH = 600`), which equals the
maze pixel width for the shipped 20-column levels. -/
def SCREEN_WIDTH : ℤ := 600 * PIXEL

/-- Side length of one maze tile (`CELL_SIZE = 30` pixels). -/
def CELL_SIZE : ℤ := 30 * PIXEL

/-- Player base speed (`PACMAN_SPEED = 2.5` pixels per tick). -/
def PACMAN_SPEED : ℤ := 5 * PIXEL / 2

/-- Ghost base speed (`GHOST_SPEED = 1.5` pixels per tick). -/
def GHOST_SPEED : ℤ := 3 * PIXEL / 2

/-- Ghost speed while frightened (`FRIGHTENED_SPEED = 1.0`). -/
def FRIGHTENED_SPEED : ℤ := PIXEL

/-- Movement directions (`Direction`). -/
inductive Direction where
  | up
  | down
  | left
  | right
  | none
deriving DecidableEq

/-- The unit step vector attached to each direction (`Direction.value`). -/
def Direction.vec : Direction → ℤ × ℤ
  | Direction.up => (0, -1)
  | Direction.down => (0, 1)
  | Direction.left => (-1, 0)
  | Direction.right => (1, 0)
  | Direction.none => (0, 0)

/-- A maze is a list of rows of tile codes:
`1` = wall, `2` = pellet, `3` = power pellet, `0` = empty. -/
abbrev Maze := List (List Nat)

/-- `int(c // CELL_SIZE)`: the tile index of a continuous coordinate.
Python's float floor-division floors, hence `Int.fdiv`. -/
def tileIndex (c : ℤ) : ℤ := c.fdiv CELL_SIZE

/-- The bounds test `0 <= my < len(maze) and 0 <= mx < len(maze[0])` used by
both collision tests and the pellet pickup. -/
def tileInRange (maze : Maze) (mx my : ℤ) : Prop :=
  0 ≤ my ∧ my < (maze.length : ℤ) ∧ 0 ≤ mx ∧ mx < ((maze.headD []).length : ℤ)

instance instDecTileInRange (maze : Maze) (mx my : ℤ) : Decidable (tileInRange maze mx my) :=
  decidable_of_iff
    (0 ≤ my ∧ my < (maze.length : ℤ) ∧ 0 ≤ mx ∧ mx < ((maze.headD []).length : ℤ))
    Iff.rfl

/-- `maze[my][mx]`.  Only consulted under the `tileInRange` guard, exactly as
in the source; the row access defaults to `0` on a short row, where the
source (which assumes uniform rows at these call sites) would fault. -/
def tileAt (maze : Maze) (mx my : ℤ) : Nat :=
  (maze.getD my.toNat []).getD mx.toNat 0

/-- `maze[my][mx] = v` as a pure update. -/
def setTile (maze : Maze) (mx my : ℤ) (v : Nat) : Maze :=
  maze.set my.toNat ((maze.getD my.toNat []).set mx.toNat v)

/-- Horizontal wrap-around applied at the end of each actor update:
`if x < 0: x = SCREEN_WIDTH elif x > SCREEN_WIDTH: x = 0`. -/
def wrapX (x : ℤ) : ℤ :=
  if x < 0 then SCREEN_WIDTH else if x > SCREEN_WIDTH then 0 else x

/-- Player state (`PacMan`), without the purely visual fields. -/
structure PacState where
  x : ℤ
  y : ℤ
  start_x : ℤ
  start_y : ℤ
  direction : Direction
  next_direction : Direction
  speed : ℤ
deriving DecidableEq

/-- One sampled corner of `PacMan.check_collision`: blocked when its tile is
in range and a wall; an out-of-range corner is passable. -/
def cornerBlocked (maze : Maze) (cx cy : ℤ) : Bool :=
  if tileInRange maze (tileIndex cx) (tileIndex cy) then
    tileAt maze (tileIndex cx) (tileIndex cy) == 1
  else
    false

/-- The corner inset of `PacMan.check_collision`: radius `10` minus margin
`4`, i.e. 6 pixels. -/
def PAC_INSET : ℤ := 6 * PIXEL

/-- `PacMan.check_collision`: sample the four corners of the bounding box
inset by the margin; the candidate is rejected if any corner is a wall. -/
def pacCheckCollision (maze : Maze) (x y : ℤ) : Bool :=
  cornerBlocked maze (x - PAC_INSET) (y - PAC_INSET) ||
    cornerBlocked maze (x + PAC_INSET) (y - PAC_INSET) ||
    cornerBlocked maze (x - PAC_INSET) (y + PAC_INSET) ||
    cornerBlocked maze (x + PAC_INSET) (y + PAC_INSET)

/-- The movement part of `PacMan.update`: first try the queued direction
(turn only), then move along the current facing. -/
def pacMoveCore (maze : Maze) (p : PacState) : PacState :=
  let p1 :=
    if p.next_direction ≠ Direction.none then
      if pacCheckCollision maze (p.x + p.next_direction.vec.1 * p.speed)
          (p.y + p.next_direction.vec.2 * p.speed) = false then
        { p with direction := p.next_direction }
      else p
    else p
  if p1.direction ≠ Direction.none then
    if pacCheckCollision maze (p1.x + p1.direction.vec.1 * p1.speed)
        (p1.y + p1.direction.vec.2 * p1.speed) = false then
      { p1 with x := p1.x + p1.direction.vec.1 * p1.speed,
                y := p1.y + p1.direction.vec.2 * p1.speed }
    else p1
  else p1

/-- The wrap-around step at the end of `PacMan.update`; only `x` is touched. -/
def pacApplyWrap (p : PacState) : PacState :=
  { p with x := wrapX p.x }

/-- `PacMan.update` (movement-relevant part). -/
def pacUpdate (maze : Maze) (p : PacState) : PacState :=
  pacApplyWrap (pacMoveCore maze p)

/-- `PacMan.reset_position`. -/
def pacResetPosition (p : PacState) : PacState :=
  { p with x := p.start_x, y := p.start_y, direction := Direction.none }

/-- Ghost state (`Ghost`), without the purely visual fields. -/
structure GhostState where
  x : ℤ
  y : ℤ
  start_x : ℤ
  start_y : ℤ
  direction : Direction
  speed : ℤ
  frightened : Bool
  frightened_timer : ℤ
  blink : Bool
deriving DecidableEq

/-- `Ghost.check_collision`: a single point lookup; note the asymmetry with
the player test: out of range counts as blocked. -/
def ghostCheckCollision (maze : Maze) (x y : ℤ) : Bool :=
  if tileInRange maze (tileIndex x) (tileIndex y) then
    tileAt maze (tileIndex x) (tileIndex y) == 1
  else
    true

/-- `Ghost.set_frightened`. -/
def setFrightened (duration : ℤ) (g : GhostState) : GhostState :=
  { g with frightened := true, frightened_timer := duration,
           speed := FRIGHTENED_SPEED }

/-- `Ghost.reset_position`: back to spawn and out of frightened mode.  The
speed is left as it is. -/
def ghostResetPosition (g : GhostState) : GhostState :=
  { g with x := g.start_x, y := g.start_y, frightened := false }

/-- The frightened-timer block at the top of `Ghost.update`: decrement, set
the blink flag, and on reaching zero leave frightened mode with speed set
back to the plain `GHOST_SPEED` constant. -/
def ghostModePhase (g : GhostState) : GhostState :=
  if g.frightened then
    let t := g.frightened_timer - 1
    let b := decide (t < 120) && ((t.fdiv 10).emod 2 == 0)
    if t ≤ 0 then
      { g with frightened_timer := t, blink := b, frightened := false,
               speed := GHOST_SPEED }
    else
      { g with frightened_timer := t, blink := b }
  else g

/-- The dominant-axis direction choice shared by `chase_pacman` and
`flee_from_pacman` (`dx`, `dy` already signed toward the goal). -/
def dominantDir (dx dy : ℤ) : Direction :=
  if |dx| > |dy| then
    (if dx > 0 then Direction.right else Direction.left)
  else
    (if dy > 0 then Direction.down else Direction.up)

/-- `Ghost.chase_pacman`: commit to the dominant-axis direction toward the
player if its 5x-speed lookahead point is clear. -/
def ghostChase (maze : Maze) (px py : ℤ) (g : GhostState) : GhostState :=
  let d := dominantDir (px - g.x) (py - g.y)
  if ghostCheckCollision maze (g.x + d.vec.1 * g.speed * 5)
      (g.y + d.vec.2 * g.speed * 5) = false then
    { g with direction := d }
  else g

/-- `Ghost.flee_from_pacman`: same with the delta sign flipped. -/
def ghostFlee (maze : Maze) (px py : ℤ) (g : GhostState) : GhostState :=
  let d := dominantDir (g.x - px) (g.y - py)
  if ghostCheckCollision maze (g.x + d.vec.1 * g.speed * 5)
      (g.y + d.vec.2 * g.speed * 5) = false then
    { g with direction := d }
  else g

/-- The dominant-axis direction the ghost AI evaluates this tick: the delta
toward the player when not frightened (`chase_pacman`), away from the
player when frightened (`flee_from_pacman`), as dispatched by the
`if not self.frightened` branch of `Ghost.update`. -/
def ghostDecisionDir (px py : ℤ) (g : GhostState) : Direction :=
  if g.frightened = false then dominantDir (px - g.x) (py - g.y)
  else dominantDir (g.x - px) (g.y - py)

/-- `Ghost.choose_random_direction`: the shuffled order is the argument;
pick the first direction whose 5x-speed lookahead point is clear. -/
def chooseRandomDirection (maze : Maze) (g : GhostState) :
    List Direction → GhostState
  | [] => g
  | d :: ds =>
    if ghostCheckCollision maze (g.x + d.vec.1 * g.speed * 5)
        (g.y + d.vec.2 * g.speed * 5) = false then
      { g with direction := d }
    else
      chooseRandomDirection maze g ds

/-- `Ghost.update` before the wrap: timer block, chase/flee decision, then
the committed move; when the move collides, `choose_random_direction` is
called and no movement happens this tick. -/
def ghostMoveCore (maze : Maze) (perm : List Direction) (px py : ℤ)
    (g : GhostState) : GhostState :=
  let g1 := ghostModePhase g
  let g2 := if g1.frightened = false then ghostChase maze px py g1
            else ghostFlee maze px py g1
  if ghostCheckCollision maze (g2.x + g2.direction.vec.1 * g2.speed)
      (g2.y + g2.direction.vec.2 * g2.speed) = false then
    { g2 with x := g2.x + g2.direction.vec.1 * g2.speed,
              y := g2.y + g2.direction.vec.2 * g2.speed }
  else
    chooseRandomDirection maze g2 perm

/-- The wrap-around step at the end of `Ghost.update`; only `x` is touched. -/
def ghostApplyWrap (g : GhostState) : GhostState :=
  { g with x := wrapX g.x }

/-- `Ghost.update` (simulation-relevant part). -/
def ghostUpdate (maze : Maze) (perm : List Direction) (px py : ℤ)
    (g : GhostState) : GhostState :=
  ghostApplyWrap (ghostMoveCore maze perm px py g)

/-- The whole mutable session owned by `Game` while playing. -/
structure Session where
  maze : Maze
  pacman : PacState
  ghosts : List GhostState
  score : ℤ
  high_score : ℤ
  lives : ℤ
  game_over : Bool
  win : Bool
  pellets_remaining : ℤ
deriving DecidableEq

/-- Squared proximity threshold `(CELL_SIZE * 0.7)^2`, i.e. 21 pixels
squared. -/
def proximityThresholdSq : ℤ := (CELL_SIZE * 7 / 10) ^ 2

/-- The pellet-pickup block of `Game.update_game`: consult the player's
tile; a pellet adds 10, a power pellet adds 50 and frightens every ghost
for 300 ticks; either empties the tile and decrements the pellet count. -/
def pelletPhase (s : Session) : Session :=
  let mx := tileIndex s.pacman.x
  let my := tileIndex s.pacman.y
  if tileInRange s.maze mx my then
    if tileAt s.maze mx my = 2 then
      { s with maze := setTile s.maze mx my 0, score := s.score + 10,
               pellets_remaining := s.pellets_remaining - 1 }
    else if tileAt s.maze mx my = 3 then
      { s with maze := setTile s.maze mx my 0, score := s.score + 50,
               pellets_remaining := s.pellets_remaining - 1,
               ghosts := s.ghosts.map (setFrightened 300) }
    else s
  else s

/-- The win-check block of `Game.update_game`. -/
def winPhase (s : Session) : Session :=
  if s.pellets_remaining = 0 then
    { s with win := true,
             high_score := if s.score > s.high_score then s.score
                           else s.high_score }
  else s

/-- Whether ghost `g`, after its move this tick, ends within the proximity
threshold of the (already moved) player. -/
def proximityHit (maze : Maze) (perm : List Direction) (p : PacState)
    (g : GhostState) : Prop :=
  (p.x - (ghostUpdate maze perm p.x p.y g).x) ^ 2 +
    (p.y - (ghostUpdate maze perm p.x p.y g).y) ^ 2 < proximityThresholdSq

/-- One iteration of the ghost loop in `Game.update_game`: update ghost `i`,
then resolve proximity; a frightened ghost is captured (+200, reset); a
pursuing ghost costs a life, ending the game at zero lives and otherwise
resetting the player and every ghost to spawn. -/
def ghostStep (perm : List Direction) (s : Session) (i : ℕ) : Session :=
  match s.ghosts[i]? with
  | Option.none => s
  | Option.some g =>
    let g1 := ghostUpdate s.maze perm s.pacman.x s.pacman.y g
    let s1 := { s with ghosts := s.ghosts.set i g1 }
    if (s1.pacman.x - g1.x) ^ 2 + (s1.pacman.y - g1.y) ^ 2 <
        proximityThresholdSq then
      if g1.frightened then
        { s1 with score := s1.score + 200,
                  ghosts := s1.ghosts.set i (ghostResetPosition g1) }
      else
        if s1.lives - 1 ≤ 0 then
          { s1 with lives := s1.lives - 1, game_over := true,
                    high_score := if s1.score > s1.high_score then s1.score
                                  else s1.high_score }
        else
          { s1 with lives := s1.lives - 1,
                    pacman := pacResetPosition s1.pacman,
                    ghosts := s1.ghosts.map ghostResetPosition }
    else s1

/-- The ghost loop: indices `i, i+1, ..., i+k-1` in order; Python iterates
over the (fixed-length) ghost list while the loop body may mutate it. -/
def ghostLoopAux (perms : List (List Direction)) :
    ℕ → ℕ → Session → Session
  | 0, _, s => s
  | k + 1, i, s => ghostLoopAux perms k (i + 1) (ghostStep (perms.getD i []) s i)

/-- All ghosts of the tick, in list order. -/
def ghostPhase (perms : List (List Direction)) (s : Session) : Session :=
  ghostLoopAux perms s.ghosts.length 0 s

/-- `Game.update_game`: a no-op once the outcome is decided; otherwise move
the player, resolve pickup, check the win, then run the ghost loop. -/
def update_game (perms : List (List Direction)) (s : Session) : Session :=
  if s.game_over || s.win then s
  else
    ghostPhase perms
      (winPhase (pelletPhase { s with pacman := pacUpdate s.maze s.pacman }))

/-- Total pellet count of a maze, as in
`sum(row.count(2) + row.count(3) for row in self.maze)`. -/
def pelletCount (maze : Maze) : ℕ :=
  (maze.map (fun r => r.count 2 + r.count 3)).sum

/-- The player state after the movement phase of the tick. -/
def pacAfter (s : Session) : PacState := pacUpdate s.maze s.pacman

/-- Tile column of the moved player. -/
def powTileX (s : Session) : ℤ := tileIndex (pacAfter s).x

/-- Tile row of the moved player. -/
def powTileY (s : Session) : ℤ := tileIndex (pacAfter s).y

/-- The session right after the pellet phase of a power-pellet tick. -/
def powerPickupState (s : Session) : Session :=
  { s with pacman := pacAfter s,
           maze := setTile s.maze (powTileX s) (powTileY s) 0,
           score := s.score + 50,
           pellets_remaining := s.pellets_remaining - 1,
           ghosts := s.ghosts.map (setFrightened 300) }

/-- A level template: tile grid, ghost count and ghost speed multiplier;
the multiplier is carried in tenths (`13` means 1.3x) so that the
multiplied ghost speeds stay on the integer lattice. -/
structure LevelTemplate where
  maze : Maze
  ghost_count : ℕ
  speed_multiplier_tenths : ℤ

/-- `GHOST_SPEED * level["speed_multiplier"]` (exact: `GHOST_SPEED` is a
multiple of 10 length units). -/
def ghostBaseSpeed (multTenths : ℤ) : ℤ :=
  GHOST_SPEED * multTenths / 10

/-- The four ghost color/name slots of `Game.setup_level`. -/
def ghostSlots : List String := ["Blinky", "Pinky", "Inky", "Clyde"]

/-- A freshly constructed player at the spawn point. -/
def mkPacman (x y : ℤ) : PacState :=
  { x := x, y := y, start_x := x, start_y := y, direction := Direction.right,
    next_direction := Direction.none, speed := PACMAN_SPEED }

/-- Ghost `i` as constructed by `Game.setup_level`: spawn at
`(CELL_SIZE * (9 + i), CELL_SIZE * 9)` with the multiplied speed. -/
def mkGhost (multTenths : ℤ) (i : ℕ) : GhostState :=
  { x := CELL_SIZE * (9 + (i : ℤ)), y := CELL_SIZE * 9,
    start_x := CELL_SIZE * (9 + (i : ℤ)), start_y := CELL_SIZE * 9,
    direction := Direction.right, speed := ghostBaseSpeed multTenths,
    frightened := false, frightened_timer := 0, blink := false }

/-- The inner loop of `Game.find_spawn`: scan columns `x, x+1, ...` of one
row, where `fuel` is the number of columns still to visit out of
`len(maze[0])`; reading past the end of a short row is Python's
`IndexError`, modelled as `Except.error`. -/
def scanRow (row : List Nat) : ℕ → ℕ → Except Unit (Option ℕ)
  | _, 0 => Except.ok Option.none
  | x, k + 1 =>
    match row[x]? with
    | Option.none => Except.error ()
    | Option.some c =>
      if c = 0 ∨ c = 2 ∨ c = 3 then Except.ok (Option.some x)
      else scanRow row (x + 1) k

/-- The outer loop of `Game.find_spawn` over the lower-half rows. -/
def findSpawnRows (width : ℕ) : ℕ → List (List Nat) →
    Except Unit (Option (ℕ × ℕ))
  | _, [] => Except.ok Option.none
  | y, row :: rest =>
    match scanRow row 0 width with
    | Except.error e => Except.error e
    | Except.ok (Option.some x) => Except.ok (Option.some (x, y))
    | Except.ok Option.none => findSpawnRows width (y + 1) rest

/-- `Game.find_spawn`: first open tile scanning row-major from the vertical
midpoint; falls back to the fixed pixel coordinate `(300, 450)`. -/
def find_spawn (maze : Maze) : Except Unit (ℤ × ℤ) :=
  match findSpawnRows (maze.headD []).length (maze.length / 2)
      (maze.drop (maze.length / 2)) with
  | Except.error e => Except.error e
  | Except.ok (Option.some (x, y)) =>
    Except.ok ((x : ℤ) * CELL_SIZE + CELL_SIZE / 2,
               (y : ℤ) * CELL_SIZE + CELL_SIZE / 2)
  | Except.ok Option.none => Except.ok (300 * PIXEL, 450 * PIXEL)

/-- The ghost-construction loop of `Game.setup_level`: ghost `i` takes
color slot `colors[i]`, which is Python's `IndexError` past slot 3. -/
def buildGhosts (multTenths : ℤ) : ℕ → ℕ → Except Unit (List GhostState)
  | _, 0 => Except.ok []
  | i, k + 1 =>
    match ghostSlots[i]? with
    | Option.none => Except.error ()
    | Option.some _ =>
      match buildGhosts multTenths (i + 1) k with
      | Except.error e => Except.error e
      | Except.ok rest => Except.ok (mkGhost multTenths i :: rest)

/-- `Game.setup_level`: copy the template maze, place the player at the
spawn, build the ghosts, and reset score/lives/flags/pellet count.  The
rolling high score survives level setup and is passed in. -/
def setup_level (hs : ℤ) (t : LevelTemplate) : Except Unit Session :=
  match find_spawn t.maze with
  | Except.error e => Except.error e
  | Except.ok spawn =>
    match buildGhosts t.speed_multiplier_tenths 0 t.ghost_count with
    | Except.error e => Except.error e
    | Except.ok ghosts =>
      Except.ok
        { maze := t.maze, pacman := mkPacman spawn.1 spawn.2, ghosts := ghosts,
          score := 0, high_score := hs, lives := 3, game_over := false,
          win := false, pellets_remaining := (pelletCount t.maze : ℤ) }

/-- A tick environment for a single ghost: what `Ghost.update` reads from
the outside on one tick. -/
structure TickEnv where
  maze : Maze
  perm : List Direction
  px : ℤ
  py : ℤ

/-- Iterate `Ghost.update` over a list of (arbitrary, possibly different)
tick environments. -/
def ghostUpdates : List TickEnv → GhostState → GhostState
  | [], g => g
  | e :: es, g => ghostUpdates es (ghostUpdate e.maze e.perm e.px e.py g)

/-! ### Concrete scenarios used in counterexamples and witnesses

All coordinates are in twentieths of a pixel: `900 = 45` pixels (the
center of tile `(1, 1)`), `600 = 30` pixels (one tile), and so on. -/

/-- A 3x3 corridor: walls above and below an open middle row. -/
def mazeCorr3 : Maze := [[1, 1, 1], [0, 0, 0], [1, 1, 1]]

/-- A fully open 3x3 maze. -/
def mazeOpen3 : Maze := [[0, 0, 0], [0, 0, 0], [0, 0, 0]]

/-- A 3x3 maze with a power pellet in the middle tile. -/
def mazePow3 : Maze := [[0, 0, 0], [0, 3, 0], [0, 0, 0]]

/-- A 1x1 all-wall maze. -/
def mazeOne : Maze := [[1]]

/-- The identity permutation of the four cardinal directions. -/
def permUDLR : List Direction :=
  [Direction.up, Direction.down, Direction.left, Direction.right]

/-- A ghost in the corridor near the top of its tile, facing right. -/
def gCorr : GhostState :=
  { x := 900, y := 700, start_x := 900, start_y := 700,
    direction := Direction.right, speed := 30, frightened := false,
    frightened_timer := 0, blink := false }

/-- A frightened ghost in the corridor near the top of its tile, facing
right. -/
def gCorrF : GhostState :=
  { x := 900, y := 650, start_x := 900, start_y := 650,
    direction := Direction.right, speed := 20, frightened := true,
    frightened_timer := 50, blink := false }

/-- A stationary player in the middle tile. -/
def pacStill : PacState :=
  { x := 900, y := 900, start_x := 900, start_y := 900,
    direction := Direction.none, next_direction := Direction.none,
    speed := 50 }

/-- A frightened ghost 18 pixels to the player's right. -/
def gFr : GhostState :=
  { x := 1260, y := 900, start_x := 1260, start_y := 900,
    direction := Direction.right, speed := 20, frightened := true,
    frightened_timer := 50, blink := false }

/-- A pursuing ghost far from the player (top-left tile center). -/
def gFar : GhostState :=
  { x := 300, y := 300, start_x := 300, start_y := 300,
    direction := Direction.right, speed := 30, frightened := false,
    frightened_timer := 0, blink := false }

/-- A pursuing ghost 15 pixels to the player's right. -/
def gNear : GhostState :=
  { x := 1200, y := 900, start_x := 1200, start_y := 900,
    direction := Direction.right, speed := 30, frightened := false,
    frightened_timer := 0, blink := false }

/-- Session with one frightened ghost about to be captured. -/
def sC3 : Session :=
  { maze := mazeOpen3, pacman := pacStill, ghosts := [gFr], score := 0,
    high_score := 0, lives := 3, game_over := false, win := false,
    pellets_remaining := 5 }

/-- Session with the player on a power pellet and one distant ghost. -/
def sC5 : Session :=
  { maze := mazePow3, pacman := pacStill, ghosts := [gFar], score := 0,
    high_score := 0, lives := 3, game_over := false, win := false,
    pellets_remaining := 1 }

/-- Session with a colliding first ghost and a distant second ghost. -/
def sC6 : Session :=
  { maze := mazeOpen3, pacman := pacStill, ghosts := [gNear, gFar], score := 0,
    high_score := 0, lives := 3, game_over := false, win := false,
    pellets_remaining := 5 }

/-- Session with the player on a power pellet and no ghosts at all. -/
def sPow0 : Session :=
  { maze := mazePow3, pacman := pacStill, ghosts := [], score := 0,
    high_score := 0, lives := 3, game_over := false, win := false,
    pellets_remaining := 1 }

/-- An already-won session. -/
def sWonW : Session :=
  { maze := mazeOpen3, pacman := pacStill, ghosts := [gFar], score := 120,
    high_score := 0, lives := 3, game_over := false, win := true,
    pellets_remaining := 0 }

/-- The ghost of `sC3` after the tick: captured, hence pursuing again, but
still at the frightened speed. -/
def gAfterC3 : GhostState :=
  { gFr with frightened := false, frightened_timer := 49, blink := true }

/-- The ghost of `sC5` after the pickup tick: frightened, one tick already
counted down. -/
def gAfterC5 : GhostState :=
  { gFar with y := 280, direction := Direction.up, speed := 20, frightened := true, frightened_timer := 299 }

/-- First ghost of `sC6` after the tick: reset to spawn. -/
def gAfterC6a : GhostState := { gNear with direction := Direction.left }

/-- Second ghost of `sC6` after the tick: reset to spawn, then moved again. -/
def gAfterC6b : GhostState := { gFar with y := 330, direction := Direction.down }

/-- All-wall template: no valid spawn tile exists in the lower half. -/
def tBad : LevelTemplate :=
  { maze := [[1, 1], [1, 1]], ghost_count := 1, speed_multiplier_tenths := 10 }

/-- Uniform template asking for five ghosts (only four slots exist). -/
def tBig : LevelTemplate :=
  { maze := [[0]], ghost_count := 5, speed_multiplier_tenths := 10 }

/-- The session `setup_level` builds from the spawnless all-wall `tBad`:
the player lands on the fallback coordinate `(300, 450)` pixels. -/
def sBadBuilt : Session :=
  { maze := [[1, 1], [1, 1]], pacman := mkPacman 6000 9000,
    ghosts := [mkGhost 10 0], score := 0, high_score := 0, lives := 3,
    game_over := false, win := false, pellets_remaining := 0 }

/-- A small well-formed template. -/
def tUniGood : LevelTemplate :=
  { maze := [[0]], ghost_count := 2, speed_multiplier_tenths := 10 }

/-- One-ghost template with the 1.3x multiplier. -/
def tOneGhost13 : LevelTemplate :=
  { maze := [[0]], ghost_count := 1, speed_multiplier_tenths := 13 }

/-- The session `setup_level` builds from `tOneGhost13`. -/
def sBuilt13 : Session :=
  { maze := [[0]], pacman := mkPacman 300 300, ghosts := [mkGhost 13 0],
    score := 0, high_score := 0, lives := 3, game_over := false, win := false,
    pellets_remaining := 0 }

/-- A fixed tick environment for iterating `Ghost.update`. -/
def envW : TickEnv := { maze := mazeOpen3, perm := [], px := 900, py := 900 }

/-! ### Helper lemmas -/

/-- `choose_random_direction` only ever reassigns the facing. -/
theorem chooseRandomDirection_fields (maze : Maze) (g : GhostState)
    (l : List Direction) :
    (chooseRandomDirection maze g l).x = g.x ∧
    (chooseRandomDirection maze g l).y = g.y ∧
    (chooseRandomDirection maze g l).speed = g.speed ∧
    (chooseRandomDirection maze g l).frightened = g.frightened ∧
    (chooseRandomDirection maze g l).frightened_timer = g.frightened_timer := by
  induction l with
  | nil => exact ⟨rfl, rfl, rfl, rfl, rfl⟩
  | cons d ds ih =>
    unfold chooseRandomDirection
    split
    · exact ⟨rfl, rfl, rfl, rfl, rfl⟩
    · exact ih

/-! ### Claim C1: horizontal wrap-around -/

/-- Claim C1 counterexample: the claim says an actor whose committed move
leaves `x = W + δ` (here `δ` is 5 pixels, i.e. 100 units) ends the tick at
`x = δ`; the code instead teleports it to `x = 0`. -/
theorem c1_counterexample :
    wrapX (SCREEN_WIDTH + 100) = 0 ∧ (0 : ℤ) ≠ 100 := by decide

/-- Claim C1 (amended): after the committed move, `x > W` is teleported to
`0` and `x < 0` to `W` (the opposite edge itself, not `W - δ` or `δ`); the
normalized `x` therefore lies in the closed interval `[0, W]`, not `[0, W)`;
and the wrap step of both actor updates leaves `y` untouched. -/
theorem c1_wrap_amended (δ x px py : ℤ) (maze : Maze) (perm : List Direction)
    (p : PacState) (g : GhostState) (h0 : 0 < δ) (_hW : δ < SCREEN_WIDTH) :
    wrapX (SCREEN_WIDTH + δ) = 0 ∧
    wrapX (-δ) = SCREEN_WIDTH ∧
    (0 ≤ wrapX x ∧ wrapX x ≤ SCREEN_WIDTH) ∧
    (pacUpdate maze p).x = wrapX (pacMoveCore maze p).x ∧
    (pacUpdate maze p).y = (pacMoveCore maze p).y ∧
    (ghostUpdate maze perm px py g).x = wrapX (ghostMoveCore maze perm px py g).x ∧
    (ghostUpdate maze perm px py g).y = (ghostMoveCore maze perm px py g).y := by
  have hWpos : (0 : ℤ) < SCREEN_WIDTH := by decide
  refine ⟨?_, ?_, ?_, rfl, rfl, rfl, rfl⟩
  · unfold wrapX
    rw [if_neg (by omega), if_pos (by omega)]
  · unfold wrapX
    rw [if_pos (by omega)]
  · unfold wrapX
    split
    · omega
    · split
      · omega
      · omega

/-- Witness for the amended C1 at `δ = 100`, `x = 7`. -/
theorem c1_wrap_amended_witness :
    wrapX (SCREEN_WIDTH + 100) = 0 ∧
    wrapX (-100) = SCREEN_WIDTH ∧
    (0 ≤ wrapX 7 ∧ wrapX 7 ≤ SCREEN_WIDTH) ∧
    (pacUpdate mazeOpen3 pacStill).x = wrapX (pacMoveCore mazeOpen3 pacStill).x ∧
    (pacUpdate mazeOpen3 pacStill).y = (pacMoveCore mazeOpen3 pacStill).y ∧
    (ghostUpdate mazeOpen3 [] 900 900 gFar).x =
      wrapX (ghostMoveCore mazeOpen3 [] 900 900 gFar).x ∧
    (ghostUpdate mazeOpen3 [] 900 900 gFar).y =
      (ghostMoveCore mazeOpen3 [] 900 900 gFar).y :=
  c1_wrap_amended 100 7 900 900 mazeOpen3 [] pacStill gFar (by decide) (by decide)

/-! ### Claim C2: blocked lookahead and the random fallback -/

/-- Claim C2 counterexample: the ghost's dominant-axis lookahead (up, toward
the player) is blocked, and `choose_random_direction` would pick `down`
(moving to `y = 730`), yet the tick moves the ghost along its old facing
`right` to `(930, 700)` without consulting the random fallback at all. -/
theorem c2_counterexample :
    ghostCheckCollision mazeCorr3
      (gCorr.x + (dominantDir (900 - gCorr.x) (100 - gCorr.y)).vec.1 * gCorr.speed * 5)
      (gCorr.y + (dominantDir (900 - gCorr.x) (100 - gCorr.y)).vec.2 * gCorr.speed * 5)
      = true ∧
    (chooseRandomDirection mazeCorr3 gCorr permUDLR).direction = Direction.down ∧
    (ghostUpdate mazeCorr3 permUDLR 900 100 gCorr).x = 930 ∧
    (ghostUpdate mazeCorr3 permUDLR 900 100 gCorr).y = 700 ∧
    gCorr.y + (chooseRandomDirection mazeCorr3 gCorr permUDLR).direction.vec.2 * gCorr.speed
      = 730 ∧
    (700 : ℤ) ≠ 730 := by decide

/-- Claim C2 (amended): in either mode — the dominant-axis delta is taken
toward the player when Pursuing and away from the player when Evading,
both evaluated on the post-timer-block state — a blocked 5x-lookahead
leaves the adversary's facing unchanged (the timer block itself never
touches position or facing), and the tick's movement is attempted along
the previous facing; only if that committed move itself collides is
`choose_random_direction` consulted, and it merely reassigns the facing
for future ticks — the adversary does not move this tick. -/
theorem c2_blocked_lookahead_amended (maze : Maze) (perm : List Direction)
    (px py : ℤ) (g : GhostState)
    (hblock : ghostCheckCollision maze
      ((ghostModePhase g).x + (ghostDecisionDir px py (ghostModePhase g)).vec.1 * (ghostModePhase g).speed * 5)
      ((ghostModePhase g).y + (ghostDecisionDir px py (ghostModePhase g)).vec.2 * (ghostModePhase g).speed * 5) = true) :
    (ghostModePhase g).direction = g.direction ∧
    (ghostModePhase g).x = g.x ∧
    (ghostModePhase g).y = g.y ∧
    (ghostCheckCollision maze ((ghostModePhase g).x + (ghostModePhase g).direction.vec.1 * (ghostModePhase g).speed)
        ((ghostModePhase g).y + (ghostModePhase g).direction.vec.2 * (ghostModePhase g).speed) = false →
      ghostUpdate maze perm px py g =
        { ghostModePhase g with
            x := wrapX ((ghostModePhase g).x + (ghostModePhase g).direction.vec.1 * (ghostModePhase g).speed),
            y := (ghostModePhase g).y + (ghostModePhase g).direction.vec.2 * (ghostModePhase g).speed }) ∧
    (ghostCheckCollision maze ((ghostModePhase g).x + (ghostModePhase g).direction.vec.1 * (ghostModePhase g).speed)
        ((ghostModePhase g).y + (ghostModePhase g).direction.vec.2 * (ghostModePhase g).speed) = true →
      ghostUpdate maze perm px py g =
        { chooseRandomDirection maze (ghostModePhase g) perm with
            x := wrapX (ghostModePhase g).x }) := by
  have hfix : (ghostModePhase g).direction = g.direction ∧
      (ghostModePhase g).x = g.x ∧ (ghostModePhase g).y = g.y := by
    simp only [ghostModePhase]
    split
    · split <;> exact ⟨rfl, rfl, rfl⟩
    · exact ⟨rfl, rfl, rfl⟩
  have hbranch : (if (ghostModePhase g).frightened = false
      then ghostChase maze px py (ghostModePhase g)
      else ghostFlee maze px py (ghostModePhase g)) = ghostModePhase g := by
    by_cases hf1 : (ghostModePhase g).frightened = false
    · rw [if_pos hf1]
      unfold ghostDecisionDir at hblock
      rw [if_pos hf1] at hblock
      simp [ghostChase, hblock]
    · rw [if_neg hf1]
      unfold ghostDecisionDir at hblock
      rw [if_neg hf1] at hblock
      simp [ghostFlee, hblock]
  have hcore : ghostMoveCore maze perm px py g =
      (if ghostCheckCollision maze ((ghostModePhase g).x + (ghostModePhase g).direction.vec.1 * (ghostModePhase g).speed)
          ((ghostModePhase g).y + (ghostModePhase g).direction.vec.2 * (ghostModePhase g).speed) = false then
        { ghostModePhase g with
            x := (ghostModePhase g).x + (ghostModePhase g).direction.vec.1 * (ghostModePhase g).speed,
            y := (ghostModePhase g).y + (ghostModePhase g).direction.vec.2 * (ghostModePhase g).speed }
      else chooseRandomDirection maze (ghostModePhase g) perm) := by
    simp only [ghostMoveCore]
    rw [hbranch]
  refine ⟨hfix.1, hfix.2.1, hfix.2.2, fun hmove => ?_, fun hmove => ?_⟩
  · unfold ghostUpdate
    rw [hcore, if_pos hmove]
    rfl
  · unfold ghostUpdate
    rw [hcore, if_neg (by simp [hmove])]
    have hx := (chooseRandomDirection_fields maze (ghostModePhase g) perm).1
    unfold ghostApplyWrap
    rw [hx]

/-- Witness for the amended C2 on both modes: the pursuing corridor ghost
and the frightened corridor ghost, each with a blocked upward lookahead,
both move along their old facing. -/
theorem c2_blocked_lookahead_witness :
    ghostUpdate mazeCorr3 permUDLR 900 100 gCorr =
      { ghostModePhase gCorr with
          x := wrapX ((ghostModePhase gCorr).x + (ghostModePhase gCorr).direction.vec.1 * (ghostModePhase gCorr).speed),
          y := (ghostModePhase gCorr).y + (ghostModePhase gCorr).direction.vec.2 * (ghostModePhase gCorr).speed } ∧
    ghostUpdate mazeCorr3 permUDLR 900 1100 gCorrF =
      { ghostModePhase gCorrF with
          x := wrapX ((ghostModePhase gCorrF).x + (ghostModePhase gCorrF).direction.vec.1 * (ghostModePhase gCorrF).speed),
          y := (ghostModePhase gCorrF).y + (ghostModePhase gCorrF).direction.vec.2 * (ghostModePhase gCorrF).speed } :=
  ⟨(c2_blocked_lookahead_amended mazeCorr3 permUDLR 900 100 gCorr
      (by decide)).2.2.2.1 (by decide),
   (c2_blocked_lookahead_amended mazeCorr3 permUDLR 900 1100 gCorrF
      (by decide)).2.2.2.1 (by decide)⟩

/-! ### Claim C7: terminal sessions are frozen -/

/-- Claim C7: once the outcome is `Won` or `Lost`, the per-tick update
returns the session unchanged in every field. -/
theorem c7_terminal_tick_frozen (perms : List (List Direction)) (s : Session)
    (h : s.game_over = true ∨ s.win = true) : update_game perms s = s := by
  unfold update_game
  rcases h with h | h <;> simp [h]

/-- Witness for C7 on a concrete won session. -/
theorem c7_terminal_tick_frozen_witness : update_game [[]] sWonW = sWonW :=
  c7_terminal_tick_frozen [[]] sWonW (Or.inr rfl)

/-! ### Claim C9: out-of-range collision queries -/

/-- Claim C9: a coordinate whose tile index is out of range raises nothing:
the player-side sampled-corner test reports it passable while the
adversary-side test reports it blocking. -/
theorem c9_out_of_range_verdicts (maze : Maze) (cx cy : ℤ)
    (h : ¬ tileInRange maze (tileIndex cx) (tileIndex cy)) :
    cornerBlocked maze cx cy = false ∧ ghostCheckCollision maze cx cy = true := by
  unfold cornerBlocked ghostCheckCollision
  rw [if_neg h, if_neg h]
  exact ⟨rfl, rfl⟩

/-- Witness for C9 at the point `(-20, 0)` (one pixel left of the maze). -/
theorem c9_out_of_range_verdicts_witness :
    cornerBlocked mazeOne (-20) 0 = false ∧
    ghostCheckCollision mazeOne (-20) 0 = true :=
  c9_out_of_range_verdicts mazeOne (-20) 0 (by decide)

/-! ### Mode evolution of `Ghost.update` -/

/-- The movement part of `Ghost.update` never touches the frightened flag
or the timer: both come from the timer block alone. -/
theorem ghostUpdate_mode (maze : Maze) (perm : List Direction) (px py : ℤ)
    (g : GhostState) :
    (ghostUpdate maze perm px py g).frightened = (ghostModePhase g).frightened ∧
    (ghostUpdate maze perm px py g).frightened_timer =
      (ghostModePhase g).frightened_timer ∧
    (ghostUpdate maze perm px py g).speed = (ghostModePhase g).speed := by
  have hchase : ∀ h : GhostState, (ghostChase maze px py h).frightened = h.frightened ∧
      (ghostChase maze px py h).frightened_timer = h.frightened_timer ∧
      (ghostChase maze px py h).speed = h.speed := by
    intro h
    simp only [ghostChase]
    split <;> exact ⟨rfl, rfl, rfl⟩
  have hflee : ∀ h : GhostState, (ghostFlee maze px py h).frightened = h.frightened ∧
      (ghostFlee maze px py h).frightened_timer = h.frightened_timer ∧
      (ghostFlee maze px py h).speed = h.speed := by
    intro h
    simp only [ghostFlee]
    split <;> exact ⟨rfl, rfl, rfl⟩
  have hc1 := chooseRandomDirection_fields maze
    (ghostChase maze px py (ghostModePhase g)) perm
  have hc2 := chooseRandomDirection_fields maze
    (ghostFlee maze px py (ghostModePhase g)) perm
  simp only [ghostUpdate, ghostApplyWrap, ghostMoveCore]
  split <;> split <;> simp_all

/-- After the timer block, a frightened ghost's timer has gone down by one
and it stays frightened exactly when the new value is positive. -/
theorem ghostModePhase_frightened (g : GhostState) (h : g.frightened = true) :
    (ghostModePhase g).frightened = decide (0 < g.frightened_timer - 1) ∧
    (ghostModePhase g).frightened_timer = g.frightened_timer - 1 := by
  simp only [ghostModePhase, h]
  by_cases hc : g.frightened_timer - 1 ≤ 0
  · rw [if_pos hc, decide_eq_false (by omega : ¬ (0 : ℤ) < g.frightened_timer - 1)]
    exact ⟨rfl, rfl⟩
  · rw [if_neg hc, decide_eq_true (by omega : (0 : ℤ) < g.frightened_timer - 1)]
    exact ⟨rfl, rfl⟩

/-- The timer block leaves an unfrightened ghost untouched. -/
theorem ghostModePhase_unfrightened (g : GhostState) (h : g.frightened = false) :
    ghostModePhase g = g := by
  unfold ghostModePhase
  rw [h]
  simp

/-- An unfrightened ghost stays unfrightened with a constant timer across
any sequence of ticks. -/
theorem ghostUpdates_unfrightened (es : List TickEnv) :
    ∀ g : GhostState, g.frightened = false →
      (ghostUpdates es g).frightened = false ∧
      (ghostUpdates es g).frightened_timer = g.frightened_timer := by
  induction es with
  | nil => exact fun g h => ⟨h, rfl⟩
  | cons e es ih =>
    intro g h
    have hm := ghostUpdate_mode e.maze e.perm e.px e.py g
    have hid := ghostModePhase_unfrightened g h
    rw [hid] at hm
    have hrec := ih (ghostUpdate e.maze e.perm e.px e.py g) (hm.1.trans h)
    exact ⟨hrec.1, (hrec.2.trans hm.2.1)⟩

/-- Frightened-mode countdown: starting from a positive timer `t`, the ghost
is still frightened after `k` ticks exactly when `k < t`, and after
`k ≤ t` ticks the timer reads `t - k`. -/
theorem ghostUpdates_frightened (es : List TickEnv) :
    ∀ g : GhostState, g.frightened = true → 0 < g.frightened_timer →
      ((ghostUpdates es g).frightened = true ↔
        (es.length : ℤ) < g.frightened_timer) ∧
      ((es.length : ℤ) ≤ g.frightened_timer →
        (ghostUpdates es g).frightened_timer =
          g.frightened_timer - es.length) := by
  induction es with
  | nil =>
    intro g hf ht
    refine ⟨?_, ?_⟩
    · simpa [ghostUpdates, hf] using ht
    · intro
      simp [ghostUpdates]
  | cons e es ih =>
    intro g hf ht
    have hm := ghostUpdate_mode e.maze e.perm e.px e.py g
    have hph := ghostModePhase_frightened g hf
    have hf1 : (ghostUpdate e.maze e.perm e.px e.py g).frightened =
        decide (0 < g.frightened_timer - 1) := hm.1.trans hph.1
    have ht1 : (ghostUpdate e.maze e.perm e.px e.py g).frightened_timer =
        g.frightened_timer - 1 := hm.2.1.trans hph.2
    by_cases hpos : 0 < g.frightened_timer - 1
    · have hrec := ih (ghostUpdate e.maze e.perm e.px e.py g)
        (by rw [hf1]; exact decide_eq_true hpos) (by rw [ht1]; exact hpos)
      rw [ht1] at hrec
      constructor
      · rw [show ghostUpdates (e :: es) g =
          ghostUpdates es (ghostUpdate e.maze e.perm e.px e.py g) from rfl]
        rw [hrec.1]
        simp only [List.length_cons]
        push_cast
        omega
      · intro hle
        simp only [List.length_cons] at hle
        push_cast at hle
        rw [show ghostUpdates (e :: es) g =
          ghostUpdates es (ghostUpdate e.maze e.perm e.px e.py g) from rfl]
        rw [hrec.2 (by omega)]
        simp only [List.length_cons]
        push_cast
        ring
    · have hzero : g.frightened_timer = 1 := by omega
      have hun := ghostUpdates_unfrightened es
        (ghostUpdate e.maze e.perm e.px e.py g)
        (by rw [hf1]; exact decide_eq_false hpos)
      constructor
      · rw [show ghostUpdates (e :: es) g =
          ghostUpdates es (ghostUpdate e.maze e.perm e.px e.py g) from rfl]
        rw [hun.1]
        simp only [List.length_cons]
        constructor
        · intro hc
          exact absurd hc (by simp)
        · intro hc
          exfalso
          push_cast at hc
          omega
      · intro hle
        simp only [List.length_cons] at hle
        have hlen : es.length = 0 := by push_cast at hle; omega
        rw [show ghostUpdates (e :: es) g =
          ghostUpdates es (ghostUpdate e.maze e.perm e.px e.py g) from rfl]
        rw [hun.2, ht1, hzero]
        simp [hlen]

/-! ### Claim C4: the Evading countdown is exact -/

/-- Claim C4: after `set_frightened(300)` an adversary is in Evading mode
for exactly 300 ticks — still Evading after any `k < 300` further updates
(whatever the maze, player position, and shuffles those ticks see),
Pursuing from the 300th update on, with the countdown hitting 0 exactly
then; and `set_frightened` always restores the full 300 no matter the
previous mode or timer. -/
theorem c4_evading_exact_duration (envs : List TickEnv) (g : GhostState) :
    ((ghostUpdates envs (setFrightened 300 g)).frightened = true ↔
      envs.length < 300) ∧
    (setFrightened 300 g).frightened_timer = 300 ∧
    (envs.length ≤ 300 →
      (ghostUpdates envs (setFrightened 300 g)).frightened_timer =
        300 - (envs.length : ℤ)) := by
  have h := ghostUpdates_frightened envs (setFrightened 300 g) rfl
    (by show (0 : ℤ) < 300; norm_num)
  refine ⟨?_, rfl, ?_⟩
  · rw [h.1]
    show ((envs.length : ℤ) < 300 ↔ _)
    omega
  · intro hle
    have h2 := h.2 (by show (envs.length : ℤ) ≤ 300; exact_mod_cast hle)
    exact h2

/-- Witness for C4: concrete tick counts 299 and 300 around the boundary. -/
theorem c4_evading_exact_duration_witness :
    ((ghostUpdates (List.replicate 299 envW) (setFrightened 300 gFar)).frightened
      = true) ∧
    ((ghostUpdates (List.replicate 300 envW) (setFrightened 300 gFar)).frightened
      = false) ∧
    ((ghostUpdates (List.replicate 300 envW) (setFrightened 300 gFar)).frightened_timer
      = 0) := by
  refine ⟨?_, ?_, ?_⟩
  · exact (c4_evading_exact_duration (List.replicate 299 envW) gFar).1.mpr
      (by rw [List.length_replicate]; norm_num)
  · have h := (c4_evading_exact_duration (List.replicate 300 envW) gFar).1
    have hn : ¬ (List.replicate 300 envW).length < 300 := by
      rw [List.length_replicate]
      norm_num
    exact Bool.eq_false_iff.mpr (fun hc => hn (h.mp hc))
  · have h := (c4_evading_exact_duration (List.replicate 300 envW) gFar).2.2
      (by rw [List.length_replicate])
    rw [h, List.length_replicate]
    norm_num

/-! ### Claim C3: mode-dependent speed invariant -/

/-- Ghosts built by `setup_level`'s loop all carry the multiplied base
speed and start unfrightened. -/
theorem buildGhosts_speed (m : ℤ) :
    ∀ (k i : ℕ) (l : List GhostState), buildGhosts m i k = Except.ok l →
      ∀ g ∈ l, g.speed = ghostBaseSpeed m ∧ g.frightened = false := by
  intro k
  induction k with
  | zero =>
    intro i l h g hg
    unfold buildGhosts at h
    cases h
    simp at hg
  | succ k ih =>
    intro i l h g hg
    unfold buildGhosts at h
    cases hs : ghostSlots[i]? with
    | none => rw [hs] at h; cases h
    | some c =>
      rw [hs] at h
      cases hb : buildGhosts m (i + 1) k with
      | error e => rw [hb] at h; cases h
      | ok rest =>
        rw [hb] at h
        cases h
        rcases List.mem_cons.mp hg with hg | hg
        · subst hg; exact ⟨rfl, rfl⟩
        · exact ih (i + 1) rest hb g hg

/-- Claim C3 counterexample: `sC3` satisfies the mode-speed invariant (its
one ghost is Evading at the Evading speed), yet after one tick — in which
the Evading ghost is captured and reset — the ghost is Pursuing but still
carries the Evading speed, not the base speed, so the invariant is not
preserved by the tick. -/
theorem c3_counterexample :
    (gFr.frightened = true ∧ gFr.speed = FRIGHTENED_SPEED) ∧
    (update_game [[]] sC3).ghosts = [gAfterC3] ∧
    gAfterC3.frightened = false ∧
    gAfterC3.speed = FRIGHTENED_SPEED ∧
    FRIGHTENED_SPEED ≠ ghostBaseSpeed 10 := by decide

/-- Claim C3 (amended): at construction every adversary carries the
multiplied base speed; entering Evading sets the Evading speed; when the
countdown expires the speed is set to the plain unmultiplied `GHOST_SPEED`
constant (the base speed only on levels with multiplier 1); and a capture
reset clears the mode but leaves the speed unchanged — the captured
adversary keeps the Evading speed until some later countdown expiry. -/
theorem c3_speed_rules_amended :
    (∀ (hs : ℤ) (t : LevelTemplate) (s : Session), setup_level hs t = Except.ok s →
      ∀ g ∈ s.ghosts, g.speed = ghostBaseSpeed t.speed_multiplier_tenths ∧
        g.frightened = false) ∧
    (∀ (d : ℤ) (g : GhostState), (setFrightened d g).speed = FRIGHTENED_SPEED) ∧
    (∀ g : GhostState, g.frightened = true → g.frightened_timer ≤ 1 →
      (ghostModePhase g).frightened = false ∧ (ghostModePhase g).speed = GHOST_SPEED) ∧
    (∀ g : GhostState, (ghostResetPosition g).frightened = false ∧
      (ghostResetPosition g).speed = g.speed) := by
  refine ⟨?_, fun d g => rfl, ?_, fun g => ⟨rfl, rfl⟩⟩
  · intro hs t s h g hg
    unfold setup_level at h
    cases hf : find_spawn t.maze with
    | error e => rw [hf] at h; cases h
    | ok spawn =>
      rw [hf] at h
      cases hb : buildGhosts t.speed_multiplier_tenths 0 t.ghost_count with
      | error e => rw [hb] at h; cases h
      | ok gl =>
        rw [hb] at h
        cases h
        exact buildGhosts_speed _ _ _ _ hb g hg
  · intro g hf ht
    simp only [ghostModePhase, hf]
    rw [if_pos (by omega : g.frightened_timer - 1 ≤ 0)]
    exact ⟨rfl, rfl⟩

/-- Witness for the amended C3 on concrete ghosts. -/
theorem c3_speed_rules_witness :
    (mkGhost 13 0).speed = ghostBaseSpeed 13 ∧
    (mkGhost 13 0).frightened = false ∧
    (setFrightened 300 gFar).speed = FRIGHTENED_SPEED ∧
    (ghostModePhase (setFrightened 1 gFr)).frightened = false ∧
    (ghostModePhase (setFrightened 1 gFr)).speed = GHOST_SPEED ∧
    (ghostResetPosition gFr).frightened = false ∧
    (ghostResetPosition gFr).speed = gFr.speed := by
  have h1 := c3_speed_rules_amended.1 0 tOneGhost13 sBuilt13 rfl (mkGhost 13 0)
    (List.mem_singleton.mpr rfl)
  have h3 := c3_speed_rules_amended.2.2.1 (setFrightened 1 gFr) rfl (by decide)
  have h4 := c3_speed_rules_amended.2.2.2 gFr
  exact ⟨h1.1, h1.2, c3_speed_rules_amended.2.1 300 gFar, h3.1, h3.2, h4.1, h4.2⟩

/-! ### Claim C8: level construction and malformed templates -/

/-- The spawn scan of one row never faults when the row has the full
width. -/
theorem scanRow_total (row : List Nat) :
    ∀ (fuel x : ℕ), x + fuel = row.length →
      ∃ r, scanRow row x fuel = Except.ok r := by
  intro fuel
  induction fuel with
  | zero => exact fun x hx => ⟨Option.none, rfl⟩
  | succ fuel ih =>
    intro x hx
    have hlt : x < row.length := by omega
    have hq : row[x]? = Option.some row[x] := List.getElem?_eq_getElem hlt
    by_cases hc : row[x] = 0 ∨ row[x] = 2 ∨ row[x] = 3
    · exact ⟨Option.some x, by simp only [scanRow, hq]; rw [if_pos hc]⟩
    · obtain ⟨r, hr⟩ := ih (x + 1) (by omega)
      exact ⟨r, by simp only [scanRow, hq]; rw [if_neg hc]; exact hr⟩

/-- The spawn scan never faults on rows of uniform width. -/
theorem findSpawnRows_total (width : ℕ) :
    ∀ (rows : List (List Nat)) (y : ℕ),
      (∀ r ∈ rows, r.length = width) →
      ∃ o, findSpawnRows width y rows = Except.ok o := by
  intro rows
  induction rows with
  | nil => exact fun y _ => ⟨Option.none, rfl⟩
  | cons row rest ih =>
    intro y hu
    obtain ⟨r, hr⟩ := scanRow_total row width 0
      (by rw [Nat.zero_add]; exact (hu row (List.mem_cons_self row rest)).symm)
    cases r with
    | some p =>
      exact ⟨Option.some (p, y), by simp only [findSpawnRows, hr]⟩
    | none =>
      obtain ⟨o, ho⟩ := ih (y + 1) (fun r h => hu r (List.mem_cons_of_mem _ h))
      exact ⟨o, by simp only [findSpawnRows, hr]; exact ho⟩

/-- `find_spawn` never faults on a maze with uniform row widths. -/
theorem find_spawn_total (maze : Maze)
    (hu : ∀ row ∈ maze, row.length = (maze.headD []).length) :
    ∃ p, find_spawn maze = Except.ok p := by
  obtain ⟨o, ho⟩ := findSpawnRows_total (maze.headD []).length
    (maze.drop (maze.length / 2)) (maze.length / 2)
    (fun r h => hu r (List.drop_subset _ _ h))
  cases o with
  | none => exact ⟨(300 * PIXEL, 450 * PIXEL), by simp only [find_spawn, ho]⟩
  | some p =>
    exact ⟨((p.1 : ℤ) * CELL_SIZE + CELL_SIZE / 2,
            (p.2 : ℤ) * CELL_SIZE + CELL_SIZE / 2),
      by simp only [find_spawn, ho]⟩

/-- The ghost-construction loop succeeds exactly when it stays within the
four color slots. -/
theorem buildGhosts_ok_iff (m : ℤ) :
    ∀ (k i : ℕ), (∃ l, buildGhosts m i k = Except.ok l) ↔ (k = 0 ∨ i + k ≤ 4) := by
  intro k
  induction k with
  | zero => exact fun i => ⟨fun _ => Or.inl rfl, fun _ => ⟨[], rfl⟩⟩
  | succ k ih =>
    intro i
    constructor
    · rintro ⟨l, hl⟩
      unfold buildGhosts at hl
      cases hs : ghostSlots[i]? with
      | none => rw [hs] at hl; cases hl
      | some c =>
        rw [hs] at hl
        have hi : i < 4 := by
          by_contra hge
          have hnone : ghostSlots[i]? = Option.none :=
            List.getElem?_eq_none (by simp only [ghostSlots]; simp; omega)
          rw [hnone] at hs
          cases hs
        cases hb : buildGhosts m (i + 1) k with
        | error e => rw [hb] at hl; cases hl
        | ok rest =>
          have hk := (ih (i + 1)).mp ⟨rest, hb⟩
          right
          rcases hk with h0 | hle
          · omega
          · omega
    · intro h
      rcases h with h0 | hle
      · exact absurd h0 (Nat.succ_ne_zero k)
      · have hi : i < 4 := by omega
        have hs : ghostSlots[i]? = Option.some ghostSlots[i] :=
          List.getElem?_eq_getElem (by simp only [ghostSlots]; simpa using hi)
        obtain ⟨rest, hb⟩ := (ih (i + 1)).mpr (Or.inr (by omega))
        exact ⟨mkGhost m i :: rest, by simp only [buildGhosts, hs, hb]⟩

/-- Claim C8 counterexample: the all-wall template `tBad` has no valid
spawn tile in the lower half of the grid (the scan returns nothing), yet
`setup_level` succeeds — falling back to the fixed spawn `(300, 450)` —
instead of failing with any error. -/
theorem c8_counterexample :
    (findSpawnRows 2 1 (tBad.maze.drop 1)).toOption =
      Option.some (Option.none : Option (ℕ × ℕ)) ∧
    (setup_level 0 tBad).toOption = Option.some sBadBuilt := by decide

/-- Claim C8 (amended): no `LevelConfigurationError` exists.  Session
construction performs no width validation; a missing spawn tile falls back
to the fixed coordinate instead of failing; on templates of uniform row
width the only construction failure is an out-of-range color-slot lookup
(`IndexError`), i.e. construction succeeds iff the adversary count is at
most the four defined slots. -/
theorem c8_construction_amended (hs : ℤ) (t : LevelTemplate)
    (hu : ∀ row ∈ t.maze, row.length = (t.maze.headD []).length) :
    (∃ s, setup_level hs t = Except.ok s) ↔ t.ghost_count ≤ 4 := by
  obtain ⟨p, hp⟩ := find_spawn_total t.maze hu
  constructor
  · rintro ⟨s, hsl⟩
    unfold setup_level at hsl
    rw [hp] at hsl
    cases hb : buildGhosts t.speed_multiplier_tenths 0 t.ghost_count with
    | error e => rw [hb] at hsl; cases hsl
    | ok gl =>
      have hk := (buildGhosts_ok_iff t.speed_multiplier_tenths t.ghost_count 0).mp
        ⟨gl, hb⟩
      omega
  · intro hc
    obtain ⟨gl, hb⟩ := (buildGhosts_ok_iff t.speed_multiplier_tenths
      t.ghost_count 0).mpr (by omega)
    exact ⟨_, by unfold setup_level; rw [hp, hb]⟩

/-- Witness for the amended C8: the uniform one-tile template with two
ghosts constructs, the one asking for five ghosts does not. -/
theorem c8_construction_amended_witness :
    (setup_level 0 tUniGood).toOption.isSome = true ∧
    (setup_level 0 tBig).toOption.isSome = false := by
  have huG : ∀ row ∈ tUniGood.maze, row.length = (tUniGood.maze.headD []).length := by
    intro row hr
    rw [show tUniGood.maze = [[0]] from rfl, List.mem_singleton] at hr
    subst hr
    rfl
  have huB : ∀ row ∈ tBig.maze, row.length = (tBig.maze.headD []).length := by
    intro row hr
    rw [show tBig.maze = [[0]] from rfl, List.mem_singleton] at hr
    subst hr
    rfl
  constructor
  · obtain ⟨s, hsl⟩ := (c8_construction_amended 0 tUniGood huG).mpr (by decide)
    rw [hsl]
    rfl
  · cases he : setup_level 0 tBig with
    | error e => rfl
    | ok s =>
      exact absurd ((c8_construction_amended 0 tBig huB).mp ⟨s, he⟩) (by decide)

/-! ### Claim C10: the pellet-count invariant -/

/-- Emptying a pellet (or power-pellet) cell removes exactly one from the
row's pellet tally. -/
theorem count23_set_zero (row : List Nat) :
    ∀ i : ℕ, row.getD i 0 = 2 ∨ row.getD i 0 = 3 →
      (row.set i 0).count 2 + (row.set i 0).count 3 + 1 =
        row.count 2 + row.count 3 := by
  induction row with
  | nil =>
    intro i h
    simp [List.getD] at h
  | cons c cs ih =>
    intro i h
    cases i with
    | zero =>
      rw [List.getD_cons_zero] at h
      rw [List.set_cons_zero]
      rcases h with h | h <;> subst h <;> simp [List.count_cons] <;> omega
    | succ i =>
      rw [List.getD_cons_succ] at h
      rw [List.set_cons_succ]
      simp only [List.count_cons]
      have hrec := ih i h
      omega

/-- `pelletCount` of a cons. -/
theorem pelletCount_cons (r : List Nat) (rs : Maze) :
    pelletCount (r :: rs) = (r.count 2 + r.count 3) + pelletCount rs := by
  simp [pelletCount]

/-- Replacing one row exchanges its tally inside `pelletCount`. -/
theorem pelletCount_set (maze : Maze) :
    ∀ (n : ℕ) (row' : List Nat), n < maze.length →
      pelletCount (maze.set n row') +
          ((maze.getD n []).count 2 + (maze.getD n []).count 3) =
        pelletCount maze + (row'.count 2 + row'.count 3) := by
  induction maze with
  | nil =>
    intro n _ h
    simp at h
  | cons r rs ih =>
    intro n row' h
    cases n with
    | zero =>
      rw [List.set_cons_zero, List.getD_cons_zero, pelletCount_cons,
        pelletCount_cons]
      omega
    | succ n =>
      rw [List.set_cons_succ, List.getD_cons_succ, pelletCount_cons,
        pelletCount_cons]
      have hrec := ih n row' (by simpa using h)
      omega

/-- Emptying an in-range pellet tile decrements the maze-wide count. -/
theorem pelletCount_setTile (maze : Maze) (mx my : ℤ)
    (hin : tileInRange maze mx my)
    (h23 : tileAt maze mx my = 2 ∨ tileAt maze mx my = 3) :
    (pelletCount (setTile maze mx my 0) : ℤ) = (pelletCount maze : ℤ) - 1 := by
  obtain ⟨h1, h2, h3, h4⟩ := hin
  have hmy : my.toNat < maze.length := by omega
  have hrow := count23_set_zero (maze.getD my.toNat []) mx.toNat h23
  have hset := pelletCount_set maze my.toNat
    ((maze.getD my.toNat []).set mx.toNat 0) hmy
  unfold setTile
  omega

/-- The pickup phase keeps the count equal to the number of pellet tiles
and never increases it. -/
theorem pelletPhase_inv (s : Session)
    (h : s.pellets_remaining = (pelletCount s.maze : ℤ)) :
    (pelletPhase s).pellets_remaining = (pelletCount (pelletPhase s).maze : ℤ) ∧
    (pelletPhase s).pellets_remaining ≤ s.pellets_remaining := by
  simp only [pelletPhase]
  split
  · next hin =>
    split
    · next h2 =>
      have hc := pelletCount_setTile s.maze (tileIndex s.pacman.x)
        (tileIndex s.pacman.y) hin (Or.inl h2)
      exact ⟨by dsimp only; omega, by dsimp only; omega⟩
    · split
      · next h3 =>
        have hc := pelletCount_setTile s.maze (tileIndex s.pacman.x)
          (tileIndex s.pacman.y) hin (Or.inr h3)
        exact ⟨by dsimp only; omega, by dsimp only; omega⟩
      · exact ⟨h, le_refl _⟩
  · exact ⟨h, le_refl _⟩

/-- The win check never touches maze, actors, score, lives or the count. -/
theorem winPhase_frame (s : Session) :
    (winPhase s).maze = s.maze ∧ (winPhase s).pacman = s.pacman ∧
    (winPhase s).ghosts = s.ghosts ∧ (winPhase s).score = s.score ∧
    (winPhase s).lives = s.lives ∧
    (winPhase s).pellets_remaining = s.pellets_remaining := by
  unfold winPhase
  split <;> exact ⟨rfl, rfl, rfl, rfl, rfl, rfl⟩

/-- One ghost-loop iteration never touches the maze or the count. -/
theorem ghostStep_frame (perm : List Direction) (s : Session) (i : ℕ) :
    (ghostStep perm s i).maze = s.maze ∧
    (ghostStep perm s i).pellets_remaining = s.pellets_remaining := by
  rcases hg : s.ghosts[i]? with _ | g
  · simp [ghostStep, hg]
  · simp only [ghostStep, hg]
    split
    · split
      · simp
      · split <;> simp
    · simp

/-- The whole ghost loop never touches the maze or the count. -/
theorem ghostLoopAux_frame (perms : List (List Direction)) :
    ∀ (k i : ℕ) (s : Session),
      (ghostLoopAux perms k i s).maze = s.maze ∧
      (ghostLoopAux perms k i s).pellets_remaining = s.pellets_remaining := by
  intro k
  induction k with
  | zero => exact fun i s => ⟨rfl, rfl⟩
  | succ k ih =>
    intro i s
    have h1 := ghostStep_frame (perms.getD i []) s i
    have h2 := ih (i + 1) (ghostStep (perms.getD i []) s i)
    exact ⟨h2.1.trans h1.1, h2.2.trans h1.2⟩

/-- The ghost phase never touches the maze or the count. -/
theorem ghostPhase_frame (perms : List (List Direction)) (s : Session) :
    (ghostPhase perms s).maze = s.maze ∧
    (ghostPhase perms s).pellets_remaining = s.pellets_remaining := by
  unfold ghostPhase
  exact ghostLoopAux_frame perms s.ghosts.length 0 s

/-- Claim C10: at construction the remaining-pellet count equals the number
of pellet/power-pellet tiles, and every tick preserves that equality (the
tile is emptied in the same step that decrements the count, and nothing
else in the tick touches either); hence the count never increases across a
tick and is never negative. -/
theorem c10_pellet_count_invariant :
    (∀ (hs : ℤ) (t : LevelTemplate) (s : Session),
      setup_level hs t = Except.ok s →
      s.pellets_remaining = (pelletCount s.maze : ℤ)) ∧
    (∀ (perms : List (List Direction)) (s : Session),
      s.pellets_remaining = (pelletCount s.maze : ℤ) →
      (update_game perms s).pellets_remaining =
        (pelletCount (update_game perms s).maze : ℤ) ∧
      (update_game perms s).pellets_remaining ≤ s.pellets_remaining ∧
      0 ≤ (update_game perms s).pellets_remaining) := by
  constructor
  · intro hs t s h
    unfold setup_level at h
    cases hf : find_spawn t.maze with
    | error e => rw [hf] at h; cases h
    | ok spawn =>
      rw [hf] at h
      cases hb : buildGhosts t.speed_multiplier_tenths 0 t.ghost_count with
      | error e => rw [hb] at h; cases h
      | ok gl =>
        rw [hb] at h
        cases h
        rfl
  · intro perms s h
    unfold update_game
    split
    · refine ⟨h, le_refl _, ?_⟩
      rw [h]
      exact Int.natCast_nonneg _
    · have h2 := pelletPhase_inv { s with pacman := pacUpdate s.maze s.pacman } h
      have hw := winPhase_frame (pelletPhase { s with pacman := pacUpdate s.maze s.pacman })
      have hg := ghostPhase_frame perms
        (winPhase (pelletPhase { s with pacman := pacUpdate s.maze s.pacman }))
      refine ⟨?_, ?_, ?_⟩
      · rw [hg.2, hg.1, hw.2.2.2.2.2, hw.1]
        exact h2.1
      · rw [hg.2, hw.2.2.2.2.2]
        exact h2.2
      · rw [hg.2, hw.2.2.2.2.2, hg.1, hw.1] at *
        rw [h2.1]
        exact Int.natCast_nonneg _

/-- Witness for C10 at a concrete construction and a concrete tick. -/
theorem c10_pellet_count_invariant_witness :
    sBuilt13.pellets_remaining = (pelletCount sBuilt13.maze : ℤ) ∧
    (update_game [[]] sC5).pellets_remaining =
      (pelletCount (update_game [[]] sC5).maze : ℤ) ∧
    (update_game [[]] sC5).pellets_remaining ≤ sC5.pellets_remaining ∧
    0 ≤ (update_game [[]] sC5).pellets_remaining := by
  have h := c10_pellet_count_invariant.2 [[]] sC5 (by decide)
  exact ⟨c10_pellet_count_invariant.1 0 tOneGhost13 sBuilt13 rfl, h.1, h.2.1, h.2.2⟩

/-! ### Claim C5: the power-pellet pickup tick -/

/-- A freshly frightened ghost is still frightened after the ghost update
of the same tick, with the timer already counted down once. -/
theorem ghostUpdate_setFrightened_mode (maze : Maze) (perm : List Direction)
    (px py : ℤ) (g : GhostState) :
    (ghostUpdate maze perm px py (setFrightened 300 g)).frightened = true ∧
    (ghostUpdate maze perm px py (setFrightened 300 g)).frightened_timer = 299 := by
  have hm := ghostUpdate_mode maze perm px py (setFrightened 300 g)
  have hp := ghostModePhase_frightened (setFrightened 300 g) rfl
  constructor
  · rw [hm.1, hp.1]
    show decide ((0 : ℤ) < 300 - 1) = true
    decide
  · rw [hm.2.1, hp.2]
    show (300 : ℤ) - 1 = 299
    decide

/-- When no ghost processed by the loop ends its move within the proximity
threshold, the loop only replaces each processed ghost by its updated
state and leaves every other session field alone. -/
theorem ghostLoopAux_no_hits (perms : List (List Direction)) :
    ∀ (k i : ℕ) (s : Session),
      (∀ j g, i ≤ j → j < i + k → s.ghosts[j]? = Option.some g →
        ¬ proximityHit s.maze (perms.getD j []) s.pacman g) →
      (ghostLoopAux perms k i s).maze = s.maze ∧
      (ghostLoopAux perms k i s).pacman = s.pacman ∧
      (ghostLoopAux perms k i s).score = s.score ∧
      (ghostLoopAux perms k i s).lives = s.lives ∧
      (ghostLoopAux perms k i s).game_over = s.game_over ∧
      (ghostLoopAux perms k i s).win = s.win ∧
      (ghostLoopAux perms k i s).pellets_remaining = s.pellets_remaining ∧
      (∀ j, (j < i ∨ i + k ≤ j) →
        (ghostLoopAux perms k i s).ghosts[j]? = s.ghosts[j]?) ∧
      (∀ j, i ≤ j → j < i + k →
        (ghostLoopAux perms k i s).ghosts[j]? = (s.ghosts[j]?).map
          (ghostUpdate s.maze (perms.getD j []) s.pacman.x s.pacman.y)) := by
  intro k
  induction k with
  | zero =>
    intro i s hno
    exact ⟨rfl, rfl, rfl, rfl, rfl, rfl, rfl, fun j _ => rfl,
      fun j h1 h2 => by omega⟩
  | succ k ih =>
    intro i s hno
    rw [show ghostLoopAux perms (k + 1) i s =
      ghostLoopAux perms k (i + 1) (ghostStep (perms.getD i []) s i) from rfl]
    rcases hg : s.ghosts[i]? with _ | g
    · have hstep : ghostStep (perms.getD i []) s i = s := by
        simp [ghostStep, hg]
      rw [hstep]
      obtain ⟨m1, m2, m3, m4, m5, m6, m7, mo, mi⟩ :=
        ih (i + 1) s (fun j g h1 h2 hj => hno j g (by omega) (by omega) hj)
      refine ⟨m1, m2, m3, m4, m5, m6, m7, ?_, ?_⟩
      · intro j hj
        rcases hj with hj | hj
        · exact mo j (Or.inl (by omega))
        · exact mo j (Or.inr (by omega))
      · intro j h1 h2
        by_cases hji : j = i
        · subst hji
          rw [mo j (Or.inl (by omega)), hg]
          rfl
        · exact mi j (by omega) (by omega)
    · have hhit := hno i g (le_refl i) (by omega) hg
      have hlen : i < s.ghosts.length := by
        by_contra hle
        rw [List.getElem?_eq_none (by omega)] at hg
        cases hg
      set gU : GhostState :=
        ghostUpdate s.maze (perms.getD i []) s.pacman.x s.pacman.y g with hgU
      have hstep : ghostStep (perms.getD i []) s i =
          { s with ghosts := s.ghosts.set i gU } := by
        rw [hgU]
        simp only [ghostStep, hg]
        rw [if_neg (by unfold proximityHit at hhit; exact hhit)]
      rw [hstep]
      obtain ⟨m1, m2, m3, m4, m5, m6, m7, mo, mi⟩ := ih (i + 1)
        { s with ghosts := s.ghosts.set i gU }
        (fun j g' h1 h2 hj => hno j g' (by omega) (by omega) (by
          rw [show ({ s with ghosts := s.ghosts.set i gU } : Session).ghosts =
                s.ghosts.set i gU from rfl,
            List.getElem?_set_ne (by omega : i ≠ j)] at hj
          exact hj))
      refine ⟨m1, m2, m3, m4, m5, m6, m7, ?_, ?_⟩
      · intro j hj
        have hj' : j < i + 1 ∨ i + 1 + k ≤ j := by omega
        rw [mo j hj']
        exact List.getElem?_set_ne (by omega)
      · intro j h1 h2
        by_cases hji : j = i
        · subst hji
          rw [mo j (Or.inl (by omega))]
          rw [show ({ s with ghosts := s.ghosts.set j gU } : Session).ghosts =
                s.ghosts.set j gU from rfl,
            List.getElem?_set_self hlen, hg]
          rfl
        · rw [mi j (by omega) (by omega)]
          rw [show ({ s with ghosts := s.ghosts.set i gU } : Session).ghosts =
                s.ghosts.set i gU from rfl,
            List.getElem?_set_ne (by omega : i ≠ j)]

/-- Overwriting an in-range, non-empty tile with `0` leaves a `0` there. -/
theorem tileAt_setTile_self (maze : Maze) (mx my : ℤ)
    (hin : tileInRange maze mx my) (hnz : tileAt maze mx my ≠ 0) :
    tileAt (setTile maze mx my 0) mx my = 0 := by
  obtain ⟨h1, h2, h3, h4⟩ := hin
  have hmy : my.toNat < maze.length := by omega
  have hmx : mx.toNat < (maze.getD my.toNat []).length := by
    by_contra hge
    refine hnz ?_
    show (maze.getD my.toNat []).getD mx.toNat 0 = 0
    rw [List.getD_eq_getElem?_getD, List.getElem?_eq_none (by omega)]
    rfl
  have hrow : (maze.set my.toNat ((maze.getD my.toNat []).set mx.toNat 0)).getD
      my.toNat [] = (maze.getD my.toNat []).set mx.toNat 0 := by
    rw [List.getD_eq_getElem?_getD, List.getElem?_set_self hmy]
    rfl
  show ((setTile maze mx my 0).getD my.toNat []).getD mx.toNat 0 = 0
  unfold setTile
  rw [hrow, List.getD_eq_getElem?_getD,
    List.getElem?_set_self hmx]
  rfl

/-- Composite of the win check and a hit-free ghost loop: each ghost is
replaced by its update, everything else (besides the win flag and the high
score) is untouched. -/
theorem ghostPhase_winPhase_no_hits (perms : List (List Direction)) (B : Session)
    (hno : ∀ j g, B.ghosts[j]? = Option.some g →
      ¬ proximityHit B.maze (perms.getD j []) B.pacman g) :
    (ghostPhase perms (winPhase B)).score = B.score ∧
    (ghostPhase perms (winPhase B)).maze = B.maze ∧
    (ghostPhase perms (winPhase B)).pellets_remaining = B.pellets_remaining ∧
    (∀ j, (ghostPhase perms (winPhase B)).ghosts[j]? = (B.ghosts[j]?).map
      (ghostUpdate B.maze (perms.getD j []) B.pacman.x B.pacman.y)) := by
  have hw := winPhase_frame B
  have hno' : ∀ j g, 0 ≤ j → j < 0 + (winPhase B).ghosts.length →
      (winPhase B).ghosts[j]? = Option.some g →
      ¬ proximityHit (winPhase B).maze (perms.getD j []) (winPhase B).pacman g := by
    intro j g _ _ hj
    rw [hw.2.2.1] at hj
    rw [hw.1, hw.2.1]
    exact hno j g hj
  obtain ⟨m1, m2, m3, m4, m5, m6, m7, mo, mi⟩ :=
    ghostLoopAux_no_hits perms (winPhase B).ghosts.length 0 (winPhase B) hno'
  have hgp : ghostPhase perms (winPhase B) =
      ghostLoopAux perms (winPhase B).ghosts.length 0 (winPhase B) := rfl
  refine ⟨?_, ?_, ?_, ?_⟩
  · rw [hgp, m3, hw.2.2.2.1]
  · rw [hgp, m1, hw.1]
  · rw [hgp, m7, hw.2.2.2.2.2]
  · intro j
    by_cases hjl : j < (winPhase B).ghosts.length
    · rw [hgp, mi j (by omega) (by omega), hw.2.2.1, hw.1, hw.2.1]
    · have hlen : B.ghosts.length ≤ j := by
        rw [hw.2.2.1] at hjl
        omega
      rw [hgp, mo j (Or.inr (by omega)), hw.2.2.1,
        List.getElem?_eq_none hlen]
      rfl

/-- Claim C5 counterexample: a tick in which the player sits on a power
pellet does add 50 to the score, empty the tile, and decrement the count,
but the adversary ends the tick with its countdown at 299, one below the
full duration, because the ghost update of the same tick already counted
it down. -/
theorem c5_counterexample :
    tileAt sC5.maze (tileIndex (pacUpdate sC5.maze sC5.pacman).x)
      (tileIndex (pacUpdate sC5.maze sC5.pacman).y) = 3 ∧
    (update_game [[]] sC5).score = sC5.score + 50 ∧
    (update_game [[]] sC5).pellets_remaining = sC5.pellets_remaining - 1 ∧
    (update_game [[]] sC5).ghosts = [gAfterC5] ∧
    gAfterC5.frightened = true ∧
    gAfterC5.frightened_timer = 299 ∧
    (299 : ℤ) ≠ 300 := by decide

/-- Claim C5 (amended): in a tick in which the (already moved) player's
tile is a power pellet and no adversary ends its move within the
proximity threshold, the tick ends with: score increased by exactly 50,
that tile empty, the remaining count decremented by one, and every
adversary in Evading mode with countdown `299` — the full duration minus
the decrement the same tick's ghost update already applied.  (When an
adversary does end within the threshold it is captured in the same tick
and ends it back in Pursuing mode.) -/
theorem c5_power_pickup_amended (perms : List (List Direction)) (s : Session)
    (hgo : s.game_over = false) (hwin : s.win = false)
    (hin : tileInRange s.maze (tileIndex (pacUpdate s.maze s.pacman).x)
      (tileIndex (pacUpdate s.maze s.pacman).y))
    (ht : tileAt s.maze (tileIndex (pacUpdate s.maze s.pacman).x)
      (tileIndex (pacUpdate s.maze s.pacman).y) = 3)
    (hfar : ∀ j g, s.ghosts[j]? = Option.some g →
      ¬ proximityHit
        (setTile s.maze (tileIndex (pacUpdate s.maze s.pacman).x)
          (tileIndex (pacUpdate s.maze s.pacman).y) 0)
        (perms.getD j []) (pacUpdate s.maze s.pacman) (setFrightened 300 g)) :
    (update_game perms s).score = s.score + 50 ∧
    tileAt (update_game perms s).maze
      (tileIndex (pacUpdate s.maze s.pacman).x)
      (tileIndex (pacUpdate s.maze s.pacman).y) = 0 ∧
    (update_game perms s).pellets_remaining = s.pellets_remaining - 1 ∧
    (∀ (j : ℕ) (g : GhostState), (update_game perms s).ghosts[j]? = Option.some g →
      g.frightened = true ∧ g.frightened_timer = 299) := by
  have hne : (s.game_over || s.win) = false := by rw [hgo, hwin]; rfl
  have hpp : pelletPhase { s with pacman := pacUpdate s.maze s.pacman } =
      powerPickupState s := by
    simp only [pelletPhase]
    rw [if_pos hin, if_neg (by rw [ht]; decide), if_pos ht]
    rfl
  have hnoB : ∀ j g, (powerPickupState s).ghosts[j]? = Option.some g →
      ¬ proximityHit (powerPickupState s).maze (perms.getD j [])
        (powerPickupState s).pacman g := by
    intro j g hj
    rw [show (powerPickupState s).ghosts = s.ghosts.map (setFrightened 300)
        from rfl, List.getElem?_map] at hj
    cases hq : s.ghosts[j]? with
    | none => rw [hq] at hj; cases hj
    | some g0 =>
      rw [hq] at hj
      cases hj
      exact hfar j g0 hq
  have hB := ghostPhase_winPhase_no_hits perms (powerPickupState s) hnoB
  unfold update_game
  rw [hne]
  simp only [Bool.false_eq_true, if_false]
  rw [hpp]
  refine ⟨hB.1, ?_, hB.2.2.1, ?_⟩
  · rw [hB.2.1]
    exact tileAt_setTile_self s.maze (tileIndex (pacUpdate s.maze s.pacman).x)
      (tileIndex (pacUpdate s.maze s.pacman).y) hin (by rw [ht]; decide)
  · intro j g hj
    rw [hB.2.2.2 j] at hj
    rw [show (powerPickupState s).ghosts = s.ghosts.map (setFrightened 300)
        from rfl, List.getElem?_map] at hj
    cases hq : s.ghosts[j]? with
    | none => rw [hq] at hj; cases hj
    | some g0 =>
      rw [hq] at hj
      cases hj
      exact ghostUpdate_setFrightened_mode _ _ _ _ g0

/-- Witness for the amended C5: a power-pellet tick with no adversaries. -/
theorem c5_power_pickup_amended_witness :
    (update_game [] sPow0).score = sPow0.score + 50 ∧
    tileAt (update_game [] sPow0).maze
      (tileIndex (pacUpdate sPow0.maze sPow0.pacman).x)
      (tileIndex (pacUpdate sPow0.maze sPow0.pacman).y) = 0 ∧
    (update_game [] sPow0).pellets_remaining = sPow0.pellets_remaining - 1 := by
  have h := c5_power_pickup_amended [] sPow0 rfl rfl (by decide) (by decide)
    (by intro j g hj; rw [show sPow0.ghosts = [] from rfl] at hj; cases j <;> cases hj)
  exact ⟨h.1, h.2.1, h.2.2.1⟩

/-! ### Claim C6: life-loss collisions -/

/-- Claim C6 counterexample: in `sC6` the first (pursuing) adversary ends
its move within the proximity threshold with 3 lives on hand, so lives
drop to 2 and everyone is reset to spawn — but the second adversary is
updated after the reset and ends the tick off its spawn (`y = 330` versus
spawn `y = 300`), contradicting "player and all adversaries are at their
spawn coordinates at the end of the tick". -/
theorem c6_counterexample :
    sC6.lives = 3 ∧
    (update_game [[], []] sC6).lives = 2 ∧
    (update_game [[], []] sC6).pacman.x = sC6.pacman.start_x ∧
    (update_game [[], []] sC6).pacman.y = sC6.pacman.start_y ∧
    (update_game [[], []] sC6).ghosts = [gAfterC6a, gAfterC6b] ∧
    gAfterC6b.y ≠ gAfterC6b.start_y := by decide

/-- Claim C6 (amended): when a pursuing adversary ends its move within the
proximity threshold, that collision costs exactly one life; at zero lives
the outcome becomes Lost with the maze untouched; with lives remaining,
the player and every adversary are put at their spawn coordinates at the
moment the collision is handled — adversaries later in the update order
then take their normal movement step afterwards and may end the tick away
from spawn. -/
theorem c6_life_loss_amended (perm : List Direction) (s : Session) (i : ℕ)
    (g : GhostState) (hg : s.ghosts[i]? = Option.some g)
    (hnf : (ghostUpdate s.maze perm s.pacman.x s.pacman.y g).frightened = false)
    (hnear : proximityHit s.maze perm s.pacman g) :
    (ghostStep perm s i).lives = s.lives - 1 ∧
    (ghostStep perm s i).maze = s.maze ∧
    (ghostStep perm s i).pellets_remaining = s.pellets_remaining ∧
    (s.lives - 1 ≤ 0 →
      (ghostStep perm s i).game_over = true ∧
      (ghostStep perm s i).pacman = s.pacman ∧
      (ghostStep perm s i).ghosts =
        s.ghosts.set i (ghostUpdate s.maze perm s.pacman.x s.pacman.y g)) ∧
    (0 < s.lives - 1 →
      (ghostStep perm s i).pacman.x = s.pacman.start_x ∧
      (ghostStep perm s i).pacman.y = s.pacman.start_y ∧
      ∀ gh ∈ (ghostStep perm s i).ghosts, gh.x = gh.start_x ∧ gh.y = gh.start_y) := by
  simp only [ghostStep, hg]
  rw [if_pos (by unfold proximityHit at hnear; exact hnear), hnf]
  simp only [Bool.false_eq_true, if_false]
  by_cases hl : s.lives - 1 ≤ 0
  · rw [if_pos hl]
    exact ⟨rfl, rfl, rfl, fun _ => ⟨rfl, rfl, rfl⟩,
      fun h => absurd hl (by omega)⟩
  · rw [if_neg hl]
    refine ⟨rfl, rfl, rfl, fun h => absurd h hl, fun _ => ⟨rfl, rfl, ?_⟩⟩
    intro gh hgh
    rw [List.mem_map] at hgh
    obtain ⟨gh0, _, rfl⟩ := hgh
    exact ⟨rfl, rfl⟩

/-- Witness for the amended C6 on the first adversary of `sC6`. -/
theorem c6_life_loss_amended_witness :
    (ghostStep [] sC6 0).lives = sC6.lives - 1 ∧
    (ghostStep [] sC6 0).maze = sC6.maze ∧
    (ghostStep [] sC6 0).pacman.x = sC6.pacman.start_x ∧
    (ghostStep [] sC6 0).pacman.y = sC6.pacman.start_y := by
  have h := c6_life_loss_amended [] sC6 0 gNear rfl (by decide)
    (by unfold proximityHit; decide)
  have h5 := h.2.2.2.2 (by decide)
  exact ⟨h.1, h.2.1, h5.1, h5.2.1⟩

end PacmanGame
